import Mathlib

/-!
Shallow embedding of the Commute Timing & Alarm Engine of this repository.

The embedded code lives in:
* `src/services/weatherbit.ts` — `CommuteCalculator` (`calculateWeatherDelay`,
  `calculateLeaveTime`, `calculateCommute`) and `getWeatherIcon`;
* the alarm-manager module — `CommuteAlarmManager` (`scheduleCommuteAlarm`,
  `scheduleWithPushNotification`, `cancelAlarm`, `calculateTriggerTime`);
* the background-service module — `BackgroundCommuteService`
  (`runDailyCalculation`, `checkAndRunDailyCalculation`, `forceRecalculation`).

Modelling conventions:
* Instants are seconds of local time on a uniform calendar (86400-second
  days); a JS `Date` value is its second count, `new Date()` is an explicit
  `now` parameter.
* "HH:MM" time-of-day strings are carried as their two numeric fields
  (hour, minute), i.e. the result of the `split(':').map(Number)` that the
  code performs on every such string it consumes.
* JS `Map` objects are association lists; `async` calls that can reject are
  oracle functions returning `Option`, and platform/native behaviour
  (Android, native module, permissions, thrown exceptions) is an explicit
  environment record.
* State mutation is explicit state passing; externally observable call
  order (alarm cancellation, tier-1/tier-2 scheduling attempts) is recorded
  in an event trace appended in program order.
-/

/-- Lowercase a string, modelling JavaScript `String.prototype.toLowerCase`
as applied to the ASCII weather descriptions the code matches on. -/
def lowerStr (s : String) : String := String.mk (s.data.map Char.toLower)

/-- `listLeadsWith pat l` is true when `pat` occurs at the very start of `l`. -/
def listLeadsWith : List Char → List Char → Bool
  | [], _ => true
  | _ :: _, [] => false
  | a :: as, b :: bs => a == b && listLeadsWith as bs

/-- Substring test, modelling JavaScript `String.prototype.includes`. -/
def strContains (s pat : String) : Bool :=
  (List.range (s.data.length + 1)).any fun i => listLeadsWith pat.data (s.data.drop i)

/-- `condition.includes(kw)` where `condition` is the lowercased weather
description, the form in which `calculateWeatherDelay` tests keywords. -/
def hasKw (w_description : String) (kw : String) : Bool :=
  strContains (lowerStr w_description) kw

/-! ## Time model (`calculateLeaveTime`, lines 136-165 of the commute service) -/

def secondsPerDay : Int := 86400

/-- Calendar-day index of an instant (the date part of a JS `Date`). -/
def dayOf (t : Int) : Int := t / secondsPerDay

/-- `arrivalDate.setHours(h, m, 0, 0)` on today's date: the arrival
time-of-day projected onto the calendar day containing `now`. -/
def projectedArrival (now hh mm : Int) : Int :=
  dayOf now * secondsPerDay + hh * 3600 + mm * 60

/-- Lines 149-152: `if (arrivalDate.getTime() < today.getTime())` —
roll the projection to tomorrow only when it is STRICTLY before now. -/
def rolledArrival (now hh mm : Int) : Int :=
  let p := projectedArrival now hh mm
  if p < now then p + secondsPerDay else p

/-- Lines 154-158: leave instant = rolled arrival minus
`durationSeconds + weatherDelaySeconds + 300` (5-minute buffer). -/
def leaveInstant (now hh mm travelSeconds weatherDelaySeconds : Int) : Int :=
  rolledArrival now hh mm - (travelSeconds + weatherDelaySeconds + 300)

/-- `calculateLeaveTime`: the leave instant formatted as its local
(hour, minute) pair — the code returns the padded "HH:MM" string. -/
def calculateLeaveTime (now hh mm travelSeconds weatherDelaySeconds : Int) : Int × Int :=
  let t := leaveInstant now hh mm travelSeconds weatherDelaySeconds
  ((t % secondsPerDay) / 3600, ((t % secondsPerDay) / 60) % 60)

/-- `CommuteAlarmManager.calculateTriggerTime` (alarm-manager module,
lines 155-168): same projection as `calculateLeaveTime` but rolls to
tomorrow when the projection is AT OR BEFORE now (`<=`). -/
def calculateTriggerTime (now hh mm : Int) : Int :=
  let p := projectedArrival now hh mm
  if p ≤ now then p + secondsPerDay else p

/-! ## Delay model (`calculateWeatherDelay`, lines 105-134) -/

/-- The weather snapshot consumed by the delay model. The fetched
`WeatherSummary` carries no wind-speed field, so `windSpeed` is optional;
`none > 15` is false, as JS `undefined > 15` is. -/
structure WeatherCondition where
  description : String
  precipitationProbability : Int
  windSpeed : Option Int

structure WeatherDelayConfig where
  rain : Int
  snow : Int
  storm : Int
  fog : Int
  heavyRain : Int

def DEFAULT_WEATHER_DELAYS : WeatherDelayConfig :=
  { rain := 5, snow := 15, storm := 20, fog := 10, heavyRain := 10 }

/-- `calculateWeatherDelay`: first-match if/else chain over the
precipitation rules (gated on probability > 70), then fog/mist takes a
max, then the wind surcharge, finally converted to seconds. -/
def calculateWeatherDelay (cfg : WeatherDelayConfig) (w : WeatherCondition) : Int :=
  let c := w.description
  let base : Int :=
    if w.precipitationProbability > 70 then
      if hasKw c "snow" ∨ hasKw c "blizzard" then cfg.snow
      else if hasKw c "storm" ∨ hasKw c "thunder" then cfg.storm
      else if hasKw c "heavy rain" ∨ w.precipitationProbability > 90 then cfg.heavyRain
      else if hasKw c "rain" ∨ hasKw c "drizzle" then cfg.rain
      else 0
    else 0
  let base2 : Int :=
    if hasKw c "fog" ∨ hasKw c "mist" then max base cfg.fog else base
  let base3 : Int :=
    match w.windSpeed with
    | some v => if v > 15 then base2 + 5 else base2
    | none => base2
  base3 * 60

/-- Modelled from the spec (§4.1, claim C3): base delay as the MAXIMUM over
all matching category rules of the table, wind surcharge added on top. -/
def specMaxDelay (cfg : WeatherDelayConfig) (w : WeatherCondition) : Int :=
  let c := w.description
  let snowD : Int :=
    if w.precipitationProbability > 70 ∧ (hasKw c "snow" ∨ hasKw c "blizzard") then cfg.snow else 0
  let stormD : Int :=
    if w.precipitationProbability > 70 ∧ (hasKw c "storm" ∨ hasKw c "thunder") then cfg.storm else 0
  let heavyD : Int :=
    if w.precipitationProbability > 90 ∨ hasKw c "heavy rain" then cfg.heavyRain else 0
  let rainD : Int :=
    if w.precipitationProbability > 70 ∧ (hasKw c "rain" ∨ hasKw c "drizzle") then cfg.rain else 0
  let fogD : Int := if hasKw c "fog" ∨ hasKw c "mist" then cfg.fog else 0
  let base := max snowD (max stormD (max heavyD (max rainD fogD)))
  let withWind : Int :=
    match w.windSpeed with
    | some v => if v > 15 then base + 5 else base
    | none => base
  withWind * 60

/-- The precipitation rules as an ordered priority list (amended reading of
§4.1): predicate and configured minutes, in source order. -/
def precipRules (cfg : WeatherDelayConfig) (w : WeatherCondition) : List (Bool × Int) :=
  [ (hasKw w.description "snow" || hasKw w.description "blizzard", cfg.snow),
    (hasKw w.description "storm" || hasKw w.description "thunder", cfg.storm),
    (hasKw w.description "heavy rain" || decide (w.precipitationProbability > 90), cfg.heavyRain),
    (hasKw w.description "rain" || hasKw w.description "drizzle", cfg.rain) ]

/-- Amended delay model: the FIRST matching rule of the ordered list applies
(all gated on precipitation probability > 70), fog/mist then takes a max
against it, and the wind surcharge is added on top. -/
def specFirstMatchDelay (cfg : WeatherDelayConfig) (w : WeatherCondition) : Int :=
  let base : Int :=
    if w.precipitationProbability > 70 then
      match (precipRules cfg w).find? (fun r => r.1) with
      | some r => r.2
      | none => 0
    else 0
  let base2 : Int :=
    if hasKw w.description "fog" ∨ hasKw w.description "mist" then max base cfg.fog else base
  let base3 : Int :=
    match w.windSpeed with
    | some v => if v > 15 then base2 + 5 else base2
    | none => base2
  base3 * 60

/-! ## Alarm manager (`CommuteAlarmManager`) -/

/-- `getWeatherIcon` from the commute service (lines 218-236). -/
def getWeatherIcon (condition : String) : String :=
  if hasKw condition "sun" ∨ hasKw condition "clear" then "☀️"
  else if hasKw condition "cloud" then "☁️"
  else if hasKw condition "rain" ∨ hasKw condition "drizzle" then "🌧️"
  else if hasKw condition "snow" then "❄️"
  else if hasKw condition "storm" ∨ hasKw condition "thunder" then "⛈️"
  else if hasKw condition "fog" ∨ hasKw condition "mist" then "🌫️"
  else "🌤️"

structure Destination where
  id : String
  name : String
  arrivalHH : Int
  arrivalMM : Int

/-- `CommuteResult` (the "HH:MM" strings carried as hour/minute fields). -/
structure CommuteResult where
  leaveHH : Int
  leaveMM : Int
  duration : Int
  weatherCondition : String
  weatherDelay : Int
  arrivalHH : Int
  arrivalMM : Int

structure ScheduledAlarm where
  id : String
  destinationId : String
  triggerTime : Int
  title : String
  message : String
  isActive : Bool

/-- Externally observable calls made by the alarm manager, in program
order: the cancel of the destination's alarm id, the tier-1 native
`scheduleExactAlarm` call, the tier-2 `scheduleWithPushNotification`
invocation. -/
inductive AlarmEvent where
  | cancelCall (alarmId : String)
  | tier1Attempt (alarmId : String)
  | tier2Attempt (alarmId : String)
deriving DecidableEq

/-- Platform environment of one alarm-manager call: `Platform.OS`,
presence of the native module, the exact-alarm permission, the outcome of
the native `scheduleExactAlarm` call (`none` = it threw), whether the
native `cancelAlarm` call throws, whether `localNotificationSchedule`
throws, and the current instant. -/
structure AlarmEnv where
  isAndroid : Bool
  hasNativeModule : Bool
  canExact : Bool
  exactResult : Option Bool
  cancelThrows : Bool
  pushThrows : Bool
  now : Int

/-- `scheduledAlarms` is the tracked `Map<string, ScheduledAlarm>`;
`pushScheduled` the platform-level push registrations (id, trigger). -/
structure AlarmState where
  scheduledAlarms : List (String × ScheduledAlarm)
  pushScheduled : List (String × Int)
  events : List AlarmEvent

def emptyAlarmState : AlarmState :=
  { scheduledAlarms := [], pushScheduled := [], events := [] }

/-- Line 32: `const alarmId = commute_ + destination.id`. -/
def alarmIdFor (destinationId : String) : String := "commute_" ++ destinationId

/-- JS `Map.set`: replace in place when the key exists, append otherwise. -/
def mapSet (m : List (String × ScheduledAlarm)) (k : String) (v : ScheduledAlarm) :
    List (String × ScheduledAlarm) :=
  if m.any (fun p => decide (p.1 = k)) then
    m.map (fun p => if p.1 = k then (k, v) else p)
  else m ++ [(k, v)]

/-- JS `Map.delete`. -/
def mapDelete (m : List (String × ScheduledAlarm)) (k : String) :
    List (String × ScheduledAlarm) :=
  m.filter (fun p => !decide (p.1 = k))

/-- `cancelAlarm` (lines 123-140): native cancel (on Android with the
module), then push-notification cancel, then removal from the tracked map;
an exception from the native call is caught, skipping the latter two. -/
def cancelAlarm (env : AlarmEnv) (alarmId : String) (st : AlarmState) : AlarmState :=
  let st1 := { st with events := st.events ++ [AlarmEvent.cancelCall alarmId] }
  if env.isAndroid && env.hasNativeModule && env.cancelThrows then st1
  else
    { st1 with
      pushScheduled := st1.pushScheduled.filter (fun p => !decide (p.1 = alarmId)),
      scheduledAlarms := mapDelete st1.scheduledAlarms alarmId }

/-- JS `Math.round(a / b)` for integers, `b > 0` (floor of the quotient
plus one half). -/
def roundDiv (a b : Int) : Int := (2 * a + b) / (2 * b)

def mkTitle (dest : Destination) : String :=
  "Time to leave for " ++ dest.name ++ "! 🚗"

def mkMessage (cr : CommuteResult) : String :=
  "ETA: " ++ toString (roundDiv cr.duration 60) ++ " mins (" ++
    getWeatherIcon cr.weatherCondition ++ " " ++ cr.weatherCondition ++ ")"

/-- `scheduleWithPushNotification` (lines 80-121): refuse a trigger at or
before now, otherwise hand the notification to the platform; a thrown
exception is caught and reported as `false`. -/
def scheduleWithPushNotification (env : AlarmEnv) (alarmId : String) (triggerTime : Int)
    (st : AlarmState) : Bool × AlarmState :=
  let st1 := { st with events := st.events ++ [AlarmEvent.tier2Attempt alarmId] }
  if triggerTime ≤ env.now then (false, st1)
  else if env.pushThrows then (false, st1)
  else (true, { st1 with pushScheduled := st1.pushScheduled ++ [(alarmId, triggerTime)] })

/-- Lines 62-71: on success, record the alarm in the tracked map. -/
def recordAlarm (alarmId destId : String) (triggerTime : Int) (title message : String)
    (st : AlarmState) : AlarmState :=
  { st with
    scheduledAlarms := mapSet st.scheduledAlarms alarmId
      { id := alarmId, destinationId := destId, triggerTime := triggerTime,
        title := title, message := message, isActive := true } }

/-- Lines 57-60 plus 62-71: the tier-2 fallback path followed by the
success bookkeeping. -/
def tier2Fallback (env : AlarmEnv) (alarmId destId : String) (triggerTime : Int)
    (title message : String) (st : AlarmState) : Bool × AlarmState :=
  let r := scheduleWithPushNotification env alarmId triggerTime st
  if r.1 then (true, recordAlarm alarmId destId triggerTime title message r.2)
  else (false, r.2)

/-- `scheduleCommuteAlarm` (lines 27-78). Control flow of the source: cancel
first; on Android with the native module and permission, call the native
exact scheduler — if that call THROWS, the outer catch returns `false`
without any tier-2 attempt; any non-thrown failure falls back to tier 2. -/
def scheduleCommuteAlarm (env : AlarmEnv) (dest : Destination) (cr : CommuteResult)
    (st : AlarmState) : Bool × AlarmState :=
  let alarmId := alarmIdFor dest.id
  let triggerTime := calculateTriggerTime env.now cr.leaveHH cr.leaveMM
  let title := mkTitle dest
  let message := mkMessage cr
  let st1 := cancelAlarm env alarmId st
  if env.isAndroid && env.hasNativeModule then
    if env.canExact then
      let st2 := { st1 with events := st1.events ++ [AlarmEvent.tier1Attempt alarmId] }
      match env.exactResult with
      | none => (false, st2)
      | some true => (true, recordAlarm alarmId dest.id triggerTime title message st2)
      | some false => tier2Fallback env alarmId dest.id triggerTime title message st2
    else tier2Fallback env alarmId dest.id triggerTime title message st1
  else tier2Fallback env alarmId dest.id triggerTime title message st1

/-! ### Tracked-map invariants (claim C5) -/

/-- Number of tracked entries recorded for a destination id. -/
def destCount (destId : String) (m : List (String × ScheduledAlarm)) : Nat :=
  (m.filter (fun p => decide (p.2.destinationId = destId))).length

/-- Number of tracked entries under a map key. -/
def keyCount (k : String) (m : List (String × ScheduledAlarm)) : Nat :=
  (m.filter (fun p => decide (p.1 = k))).length

/-- Structural invariant of the tracked map: JS `Map` keys are unique, and
every entry is keyed by its destination's deterministic alarm id. -/
def mapWf (m : List (String × ScheduledAlarm)) : Prop :=
  (m.map Prod.fst).Nodup ∧ ∀ p ∈ m, p.1 = alarmIdFor p.2.destinationId

def AlarmWf (st : AlarmState) : Prop := mapWf st.scheduledAlarms

/-- The tracked entry written by a successful `scheduleCommuteAlarm`. -/
def newAlarmFor (env : AlarmEnv) (dest : Destination) (cr : CommuteResult) : ScheduledAlarm :=
  { id := alarmIdFor dest.id, destinationId := dest.id,
    triggerTime := calculateTriggerTime env.now cr.leaveHH cr.leaveMM,
    title := mkTitle dest, message := mkMessage cr, isActive := true }

def c5Env : AlarmEnv :=
  { isAndroid := true, hasNativeModule := true, canExact := true, exactResult := some true,
    cancelThrows := false, pushThrows := false, now := 0 }

def c5Dest : Destination := { id := "home", name := "Home", arrivalHH := 9, arrivalMM := 0 }

def c5Result : CommuteResult :=
  { leaveHH := 8, leaveMM := 25, duration := 1500, weatherCondition := "clear sky",
    weatherDelay := 0, arrivalHH := 9, arrivalMM := 0 }

def c6Env : AlarmEnv :=
  { isAndroid := true, hasNativeModule := true, canExact := true, exactResult := none,
    cancelThrows := false, pushThrows := false, now := 0 }

def c6Dest : Destination := { id := "work", name := "Work", arrivalHH := 9, arrivalMM := 0 }

def c6Result : CommuteResult :=
  { leaveHH := 8, leaveMM := 25, duration := 1500, weatherCondition := "light rain",
    weatherDelay := 300, arrivalHH := 9, arrivalMM := 0 }

def c6EnvNoPerm : AlarmEnv :=
  { isAndroid := true, hasNativeModule := true, canExact := false, exactResult := some true,
    cancelThrows := false, pushThrows := false, now := 0 }

/-! ## Commute orchestrator and daily recalculation service -/

inductive TaskStatus where
  | completed
  | failed
deriving DecidableEq

/-- The JSON object stored under the background-task key (lines 113-117):
`lastRun` timestamp, processed count, status, optional error message. -/
structure TaskRecord where
  lastRun : Int
  destinationsProcessed : Nat
  status : TaskStatus
  error : Option String
deriving DecidableEq

/-- Oracles for the two external fetches of `calculateCommute`
(`fetchDrivingEta` and `fetchWeatherByLatLng`); `none` means the call
throws/rejects. -/
structure CommuteEnv where
  etaSeconds : Destination → Option Int
  weather : Destination → Option WeatherCondition
  cfg : WeatherDelayConfig

/-- `CommuteCalculator.calculateCommute` (lines 61-103): fetch the travel
estimate, fetch the weather, run the delay model and the leave-time
calculator; a failed fetch aborts this destination with an error (`none`).
The database write of the result is an external upsert not modelled here. -/
def calculateCommute (cenv : CommuteEnv) (now : Int) (d : Destination) : Option CommuteResult :=
  match cenv.etaSeconds d, cenv.weather d with
  | some dur, some w =>
    let delay := calculateWeatherDelay cenv.cfg w
    let lt := calculateLeaveTime now d.arrivalHH d.arrivalMM dur delay
    some { leaveHH := lt.1, leaveMM := lt.2, duration := dur,
           weatherCondition := w.description, weatherDelay := delay,
           arrivalHH := d.arrivalHH, arrivalMM := d.arrivalMM }
  | _, _ => none

/-- Environment of one background-service run: the stored destination
list, the fetch oracles, the platform environment for alarm scheduling,
today's date string and the current instant. -/
structure BgEnv where
  destinations : List Destination
  commuteEnv : CommuteEnv
  alarmEnv : AlarmEnv
  today : String
  now : Int

/-- `BackgroundCommuteService` state: the `isRunning` guard, the persisted
last-calculation date (`LAST_CALCULATION_KEY`), the persisted task record
(`BACKGROUND_TASK_KEY`) and the alarm manager's state. -/
structure BgState where
  isRunning : Bool
  lastCalculation : Option String
  lastTaskInfo : Option TaskRecord
  alarms : AlarmState

/-- One iteration of the per-destination loop (lines 93-108): a failed
`calculateCommute` is caught and skipped; a successful one is counted in
`results` and handed to `scheduleCommuteAlarm` (whose boolean result is
ignored by the loop). -/
def sweepStep (env : BgEnv) (acc : Nat × AlarmState) (d : Destination) : Nat × AlarmState :=
  match calculateCommute env.commuteEnv env.now d with
  | none => acc
  | some cr => (acc.1 + 1, (scheduleCommuteAlarm env.alarmEnv d cr acc.2).2)

/-- `runDailyCalculation` (lines 68-131): drop the trigger if a run is in
progress; return early (writing NO record) when the destination list is
empty; otherwise sweep all destinations and store a completed record with
the count of destinations that individually succeeded. -/
def runDailyCalculation (env : BgEnv) (st : BgState) : BgState :=
  if st.isRunning then st
  else if env.destinations.isEmpty then { st with isRunning := false }
  else
    let r := env.destinations.foldl (sweepStep env) (0, st.alarms)
    { st with
      isRunning := false
      alarms := r.2
      lastTaskInfo := some
        { lastRun := env.now
          destinationsProcessed := r.1
          status := TaskStatus.completed
          error := none } }

/-- `checkAndRunDailyCalculation` (lines 47-66): skip when the stored date
equals today, otherwise run the sweep and then record today's date. -/
def checkAndRunDailyCalculation (env : BgEnv) (st : BgState) : BgState :=
  if st.lastCalculation = some env.today then st
  else { runDailyCalculation env st with lastCalculation := some env.today }

/-- `forceRecalculation` (lines 133-137): remove the stored date, then run
the sweep unconditionally (the forced run itself never rewrites the date). -/
def forceRecalculation (env : BgEnv) (st : BgState) : BgState :=
  runDailyCalculation env { st with lastCalculation := none }

def c7AlarmEnv : AlarmEnv :=
  { isAndroid := true, hasNativeModule := true, canExact := true, exactResult := some true,
    cancelThrows := false, pushThrows := false, now := 0 }

def c7DestA : Destination := { id := "a", name := "A", arrivalHH := 9, arrivalMM := 0 }

def c7DestB : Destination := { id := "b", name := "B", arrivalHH := 10, arrivalMM := 30 }

def c7Env : BgEnv :=
  { destinations := [c7DestA, c7DestB]
    commuteEnv :=
      { etaSeconds := fun d => if d.id = "a" then none else some 1500
        weather := fun _ => some
          { description := "clear sky", precipitationProbability := 10, windSpeed := none }
        cfg := DEFAULT_WEATHER_DELAYS }
    alarmEnv := c7AlarmEnv
    today := "2025-01-01"
    now := 0 }

def c7State : BgState :=
  { isRunning := false, lastCalculation := none, lastTaskInfo := none,
    alarms := emptyAlarmState }

def c8Env : BgEnv :=
  { destinations := []
    commuteEnv :=
      { etaSeconds := fun _ => none
        weather := fun _ => none
        cfg := DEFAULT_WEATHER_DELAYS }
    alarmEnv := c7AlarmEnv
    today := "2025-01-01"
    now := 0 }

def c8State : BgState :=
  { isRunning := false, lastCalculation := none, lastTaskInfo := none,
    alarms := emptyAlarmState }

def c9Env : BgEnv :=
  { destinations := [c7DestA]
    commuteEnv :=
      { etaSeconds := fun _ => some 1500
        weather := fun _ => some
          { description := "clear sky", precipitationProbability := 10, windSpeed := none }
        cfg := DEFAULT_WEATHER_DELAYS }
    alarmEnv := c7AlarmEnv
    today := "2025-01-01"
    now := 0 }

def c9State : BgState :=
  { isRunning := true, lastCalculation := none, lastTaskInfo := none,
    alarms := emptyAlarmState }

/-! ## Theorems -/

example :
    calculateWeatherDelay DEFAULT_WEATHER_DELAYS
      { description := "light rain", precipitationProbability := 75, windSpeed := none } = 300 := by
  decide

example :
    calculateWeatherDelay DEFAULT_WEATHER_DELAYS
      { description := "heavy rain", precipitationProbability := 50, windSpeed := some 0 } = 0 := by
  decide

example :
    calculateWeatherDelay DEFAULT_WEATHER_DELAYS
      { description := "snowstorm", precipitationProbability := 80, windSpeed := some 0 } = 900 := by
  decide

example :
    specMaxDelay DEFAULT_WEATHER_DELAYS
      { description := "snowstorm", precipitationProbability := 80, windSpeed := some 0 } = 1200 := by
  decide

/-! ## Claims C1-C4 -/

/-- C1: for every arrival time-of-day and all non-negative travel and
weather-delay seconds, the leave instant computed by `calculateLeaveTime`
(projected arrival minus travel + delay + 300-second buffer) is strictly
earlier than the projected arrival instant. -/
theorem c1_leave_strictly_before_arrival (now hh mm travel delay : Int)
    (ht : 0 ≤ travel) (hd : 0 ≤ delay) :
    leaveInstant now hh mm travel delay < rolledArrival now hh mm := by
  unfold leaveInstant
  omega

theorem c1_leave_strictly_before_arrival_witness :
    (0 : Int) ≤ 1500 ∧ (0 : Int) ≤ 300 ∧
      leaveInstant 1757923200 9 0 1500 300 < rolledArrival 1757923200 9 0 :=
  ⟨by norm_num, by norm_num,
    c1_leave_strictly_before_arrival 1757923200 9 0 1500 300 (by norm_num) (by norm_num)⟩

/-- C2 counterexample: a description containing "heavy rain" (and none of
"snow", "blizzard", "storm", "thunder") with precipitation probability 50
yields delay 0, not the claimed `heavyRain` minimum of 600 seconds: the
heavy-rain rule sits inside the `probability > 70` gate. -/
theorem c2_counterexample :
    hasKw "heavy rain" "heavy rain" = true ∧
    hasKw "heavy rain" "snow" = false ∧ hasKw "heavy rain" "blizzard" = false ∧
    hasKw "heavy rain" "storm" = false ∧ hasKw "heavy rain" "thunder" = false ∧
    calculateWeatherDelay DEFAULT_WEATHER_DELAYS
      { description := "heavy rain", precipitationProbability := 50, windSpeed := some 0 } = 0 ∧
    DEFAULT_WEATHER_DELAYS.heavyRain * 60 = 600 := by
  decide

/-- C2 amended: for a snapshot whose description contains none of "snow",
"blizzard", "storm", "thunder", if precipitation probability exceeds 90, or
it exceeds 70 and the description contains "heavy rain", then the delay is
at least `config.heavyRain` minutes (in seconds). -/
theorem c2_amended_heavy_rain_floor (cfg : WeatherDelayConfig) (w : WeatherCondition)
    (hsnow : hasKw w.description "snow" = false)
    (hbliz : hasKw w.description "blizzard" = false)
    (hstorm : hasKw w.description "storm" = false)
    (hthun : hasKw w.description "thunder" = false)
    (h : w.precipitationProbability > 90 ∨
         (w.precipitationProbability > 70 ∧ hasKw w.description "heavy rain" = true)) :
    cfg.heavyRain * 60 ≤ calculateWeatherDelay cfg w := by
  have h70 : w.precipitationProbability > 70 := by rcases h with h | ⟨h, _⟩ <;> omega
  unfold calculateWeatherDelay
  simp only [hsnow, hbliz, hstorm, hthun, if_pos h70, Bool.false_eq_true, or_self, if_false]
  have hbranch :
      (if hasKw w.description "heavy rain" = true ∨ w.precipitationProbability > 90 then
          cfg.heavyRain
        else if hasKw w.description "rain" = true ∨ hasKw w.description "drizzle" = true then
          cfg.rain
        else 0) = cfg.heavyRain := by
    rw [if_pos]
    tauto
  rw [hbranch]
  have hfog : cfg.heavyRain ≤
      (if hasKw w.description "fog" = true ∨ hasKw w.description "mist" = true then
        max cfg.heavyRain cfg.fog else cfg.heavyRain) := by
    split
    · exact le_max_left _ _
    · exact le_refl _
  have hwind : cfg.heavyRain ≤
      (match w.windSpeed with
        | some v => if v > 15 then
            (if hasKw w.description "fog" = true ∨ hasKw w.description "mist" = true then
              max cfg.heavyRain cfg.fog else cfg.heavyRain) + 5
          else
            (if hasKw w.description "fog" = true ∨ hasKw w.description "mist" = true then
              max cfg.heavyRain cfg.fog else cfg.heavyRain)
        | none =>
            (if hasKw w.description "fog" = true ∨ hasKw w.description "mist" = true then
              max cfg.heavyRain cfg.fog else cfg.heavyRain)) := by
    rcases hw : w.windSpeed with _ | v
    · exact hfog
    · split
      · omega
      · exact hfog
  calc cfg.heavyRain * 60 ≤ _ * 60 := by
        exact mul_le_mul_of_nonneg_right hwind (by norm_num)

/-- C3 counterexample: "snowstorm" at probability 80 matches both the
snow/blizzard rule (15 min) and the storm/thunder rule (20 min); the code
takes the FIRST match (900 s), not the maximum (1200 s). -/
theorem c3_counterexample :
    calculateWeatherDelay DEFAULT_WEATHER_DELAYS
      { description := "snowstorm", precipitationProbability := 80, windSpeed := some 0 } = 900 ∧
    specMaxDelay DEFAULT_WEATHER_DELAYS
      { description := "snowstorm", precipitationProbability := 80, windSpeed := some 0 } = 1200 ∧
    (900 : Int) ≠ 1200 := by
  decide

/-- C3 amended: the base delay is the FIRST matching rule of the priority
list snow/blizzard, storm/thunder, heavy-rain-or-probability>90,
rain/drizzle (all inside the probability > 70 gate), fog/mist then takes a
max against the result, and the +5 wind surcharge is added on top. -/
theorem firstMatchChain (p90 : Prop) [Decidable p90] (a b ch d : Bool) (s t h r : Int) :
    (if a = true then s
     else if b = true then t
     else if ch = true ∨ p90 then h
     else if d = true then r
     else 0)
  = (match List.find? (fun x => x.1) [(a, s), (b, t), (ch || decide p90, h), (d, r)] with
     | some x => x.2
     | none => 0) := by
  cases a <;> cases b <;> cases ch <;> cases d <;> by_cases hp : p90 <;>
    simp [List.find?, hp]

theorem c3_amended_first_match (cfg : WeatherDelayConfig) (w : WeatherCondition) :
    calculateWeatherDelay cfg w = specFirstMatchDelay cfg w := by
  unfold calculateWeatherDelay specFirstMatchDelay precipRules
  by_cases h70 : w.precipitationProbability > 70
  · simp only [if_pos h70, ← Bool.or_eq_true]
    rw [firstMatchChain (w.precipitationProbability > 90)
      (hasKw w.description "snow" || hasKw w.description "blizzard")
      (hasKw w.description "storm" || hasKw w.description "thunder")
      (hasKw w.description "heavy rain")
      (hasKw w.description "rain" || hasKw w.description "drizzle")
      cfg.snow cfg.storm cfg.heavyRain cfg.rain]
  · simp only [if_neg h70]

/-- C4 counterexample: with now exactly 09:00:00 (instant 32400 of day 0)
and arrival time "09:00", the projection equals now, yet the code does NOT
roll it forward (the guard is strict `<`); the rolled arrival and the
resulting leave instant stay in the current calendar day, not the next. -/
theorem c4_counterexample :
    projectedArrival 32400 9 0 = 32400 ∧
    rolledArrival 32400 9 0 = projectedArrival 32400 9 0 ∧
    dayOf (rolledArrival 32400 9 0) = dayOf 32400 ∧
    dayOf (leaveInstant 32400 9 0 0 0) = dayOf 32400 := by
  decide

/-- C4 amended: `calculateLeaveTime` rolls the projected arrival forward
exactly one calendar day when the projection is STRICTLY before the current
instant, and performs no roll when the projection is at or after now (in
particular not when exactly equal); in the rolled case the projected
arrival lands in the next calendar day. -/
theorem c4_amended_rollover (now hh mm : Int)
    (hh0 : 0 ≤ hh) (hh24 : hh < 24) (hm0 : 0 ≤ mm) (hm60 : mm < 60) :
    (projectedArrival now hh mm < now →
        rolledArrival now hh mm = projectedArrival now hh mm + secondsPerDay ∧
        dayOf (rolledArrival now hh mm) = dayOf now + 1) ∧
    (now ≤ projectedArrival now hh mm →
        rolledArrival now hh mm = projectedArrival now hh mm ∧
        dayOf (rolledArrival now hh mm) = dayOf now) := by
  unfold rolledArrival projectedArrival dayOf secondsPerDay
  constructor <;> intro h
  · rw [if_pos h]
    constructor
    · rfl
    · omega
  · rw [if_neg (by omega)]
    constructor
    · rfl
    · omega

theorem c4_amended_rollover_witness :
    ((0 : Int) ≤ 9 ∧ (9 : Int) < 24 ∧ (0 : Int) ≤ 0 ∧ (0 : Int) < 60 ∧
      projectedArrival 50000 9 0 < 50000 ∧
      rolledArrival 50000 9 0 = projectedArrival 50000 9 0 + secondsPerDay ∧
      dayOf (rolledArrival 50000 9 0) = dayOf 50000 + 1) ∧
    (50000 : Int) ≤ projectedArrival 50000 14 0 ∧
      rolledArrival 50000 14 0 = projectedArrival 50000 14 0 ∧
      dayOf (rolledArrival 50000 14 0) = dayOf 50000 :=
  ⟨⟨by norm_num, by norm_num, by norm_num, by norm_num, by decide,
    (c4_amended_rollover 50000 9 0 (by norm_num) (by norm_num) (by norm_num)
      (by norm_num)).1 (by decide)⟩,
   by decide,
   (c4_amended_rollover 50000 14 0 (by norm_num) (by norm_num) (by norm_num)
      (by norm_num)).2 (by decide)⟩

theorem alarmIdFor_inj {a b : String} (h : alarmIdFor a = alarmIdFor b) : a = b := by
  have hd : (alarmIdFor a).data = (alarmIdFor b).data := congrArg String.data h
  cases a; cases b
  simp only [alarmIdFor, String.data] at hd
  simp at hd
  simp [hd]

theorem keyCount_mapDelete (m : List (String × ScheduledAlarm)) (k : String) :
    keyCount k (mapDelete m k) = 0 := by
  unfold keyCount mapDelete
  induction m with
  | nil => rfl
  | cons a t ih =>
    by_cases h : a.1 = k
    · have hb : (!decide (a.1 = k)) = false := by simp [h]
      simp only [List.filter_cons, hb, Bool.false_eq_true, if_false]
      exact ih
    · have hb2 : (decide (a.1 = k)) = false := by simp [h]
      simp only [List.filter_cons, hb2, Bool.not_false, eq_self_iff_true, if_true,
        Bool.false_eq_true, if_false]
      exact ih

theorem keyCount_eq_zero_of_not_mem (m : List (String × ScheduledAlarm)) (k : String)
    (h : k ∉ m.map Prod.fst) : keyCount k m = 0 := by
  unfold keyCount
  induction m with
  | nil => rfl
  | cons a t ih =>
    simp only [List.map_cons, List.mem_cons] at h
    push_neg at h
    have ha : ¬(a.1 = k) := fun hc => h.1 hc.symm
    simpa [List.filter_cons, ha] using ih h.2

theorem keyCount_le_one (m : List (String × ScheduledAlarm)) (k : String)
    (h : (m.map Prod.fst).Nodup) : keyCount k m ≤ 1 := by
  induction m with
  | nil => simp [keyCount]
  | cons a t ih =>
    simp only [List.map_cons, List.nodup_cons] at h
    by_cases hk : a.1 = k
    · have h0 : keyCount k t = 0 := keyCount_eq_zero_of_not_mem t k (hk ▸ h.1)
      unfold keyCount at h0 ⊢
      simp [List.filter_cons, hk, h0]
    · have := ih h.2
      unfold keyCount at this ⊢
      simpa [List.filter_cons, hk] using this

theorem keyCount_mapSet_replace (m : List (String × ScheduledAlarm)) (k : String)
    (v : ScheduledAlarm) :
    keyCount k (m.map (fun p => if p.1 = k then (k, v) else p)) = keyCount k m := by
  unfold keyCount
  induction m with
  | nil => rfl
  | cons a t ih =>
    by_cases h : a.1 = k <;> simp [List.filter_cons, h, ih]

theorem keyCount_pos_of_any (m : List (String × ScheduledAlarm)) (k : String)
    (h : m.any (fun p => decide (p.1 = k)) = true) : 1 ≤ keyCount k m := by
  unfold keyCount
  rcases List.any_eq_true.mp h with ⟨p, hp, hpk⟩
  simp only [decide_eq_true_eq] at hpk
  have hmem : p ∈ m.filter (fun p => decide (p.1 = k)) :=
    List.mem_filter.mpr ⟨hp, by simp [hpk]⟩
  have hne : m.filter (fun p => decide (p.1 = k)) ≠ [] := by
    intro hc
    rw [hc] at hmem
    exact (List.not_mem_nil p) hmem
  have := List.length_pos.mpr hne
  omega

theorem keyCount_mapSet (m : List (String × ScheduledAlarm)) (k : String) (v : ScheduledAlarm)
    (h : (m.map Prod.fst).Nodup) : keyCount k (mapSet m k v) = 1 := by
  unfold mapSet
  by_cases ha : m.any (fun p => decide (p.1 = k)) = true
  · rw [if_pos ha, keyCount_mapSet_replace]
    have h1 := keyCount_pos_of_any m k ha
    have h2 := keyCount_le_one m k h
    omega
  · rw [if_neg ha]
    have h0 : keyCount k m = 0 := by
      apply keyCount_eq_zero_of_not_mem
      intro hc
      rcases List.mem_map.mp hc with ⟨p, hp, hpk⟩
      exact ha (List.any_eq_true.mpr ⟨p, hp, by simp [hpk]⟩)
    unfold keyCount at h0 ⊢
    simp [List.filter_append, List.filter_cons, h0]

theorem destCount_eq_keyCount (m : List (String × ScheduledAlarm)) (dId : String)
    (hwf : ∀ p ∈ m, p.1 = alarmIdFor p.2.destinationId) :
    destCount dId m = keyCount (alarmIdFor dId) m := by
  unfold destCount keyCount
  congr 1
  apply List.filter_congr
  intro p hp
  have hk := hwf p hp
  by_cases h : p.2.destinationId = dId
  · simp [h, hk]
  · have hne : p.1 ≠ alarmIdFor dId := by
      rw [hk]
      intro hc
      exact h (alarmIdFor_inj hc)
    simp [h, hne]

theorem destCount_le_one (m : List (String × ScheduledAlarm)) (dId : String) (h : mapWf m) :
    destCount dId m ≤ 1 := by
  rw [destCount_eq_keyCount m dId h.2]
  exact keyCount_le_one m _ h.1

theorem mapWf_delete (m : List (String × ScheduledAlarm)) (k : String) (h : mapWf m) :
    mapWf (mapDelete m k) := by
  constructor
  · exact ((List.filter_sublist m).map Prod.fst).nodup h.1
  · intro p hp
    exact h.2 p (List.mem_of_mem_filter hp)

theorem mapWf_set (m : List (String × ScheduledAlarm)) (k : String) (v : ScheduledAlarm)
    (h : mapWf m) (hk : k = alarmIdFor v.destinationId) : mapWf (mapSet m k v) := by
  unfold mapSet
  by_cases ha : m.any (fun p => decide (p.1 = k)) = true
  · rw [if_pos ha]
    constructor
    · have hkeys : (m.map (fun p => if p.1 = k then (k, v) else p)).map Prod.fst =
          m.map Prod.fst := by
        rw [List.map_map]
        apply List.map_congr_left
        intro p _
        by_cases hp : p.1 = k <;> simp [hp]
      rw [hkeys]
      exact h.1
    · intro p hp
      rcases List.mem_map.mp hp with ⟨q, hq, rfl⟩
      by_cases hq1 : q.1 = k
      · rw [if_pos hq1]
        exact hk
      · rw [if_neg hq1]
        exact h.2 q hq
  · rw [if_neg ha]
    constructor
    · rw [List.map_append]
      have hnotin : k ∉ m.map Prod.fst := by
        intro hc
        rcases List.mem_map.mp hc with ⟨p, hp, hpk⟩
        exact ha (List.any_eq_true.mpr ⟨p, hp, by simp [hpk]⟩)
      apply List.Nodup.append h.1 (by simp)
      intro x hx hx2
      simp at hx2
      subst hx2
      exact hnotin hx
    · intro p hp
      rcases List.mem_append.mp hp with hmem | hmem
      · exact h.2 p hmem
      · simp at hmem
        subst hmem
        simpa using hk

theorem cancelAlarm_events (env : AlarmEnv) (alarmId : String) (st : AlarmState) :
    (cancelAlarm env alarmId st).events = st.events ++ [AlarmEvent.cancelCall alarmId] := by
  unfold cancelAlarm
  by_cases h : (env.isAndroid && env.hasNativeModule && env.cancelThrows) = true <;> simp [h]

theorem cancelAlarm_alarms_cases (env : AlarmEnv) (alarmId : String) (st : AlarmState) :
    (cancelAlarm env alarmId st).scheduledAlarms = st.scheduledAlarms ∨
    (cancelAlarm env alarmId st).scheduledAlarms = mapDelete st.scheduledAlarms alarmId := by
  unfold cancelAlarm
  by_cases h : (env.isAndroid && env.hasNativeModule && env.cancelThrows) = true
  · left
    simp [h]
  · right
    simp [h]

theorem alarmWf_cancel (env : AlarmEnv) (alarmId : String) (st : AlarmState)
    (h : AlarmWf st) : AlarmWf (cancelAlarm env alarmId st) := by
  unfold AlarmWf
  rcases cancelAlarm_alarms_cases env alarmId st with hc | hc
  · rw [hc]
    exact h
  · rw [hc]
    exact mapWf_delete _ _ h

theorem tier2Fallback_alarms (env : AlarmEnv) (alarmId destId : String) (tt : Int)
    (title message : String) (s : AlarmState) :
    (tier2Fallback env alarmId destId tt title message s).2.scheduledAlarms =
      (if (tier2Fallback env alarmId destId tt title message s).1 = true then
        mapSet s.scheduledAlarms alarmId
          { id := alarmId, destinationId := destId, triggerTime := tt, title := title,
            message := message, isActive := true }
      else s.scheduledAlarms) := by
  unfold tier2Fallback scheduleWithPushNotification recordAlarm
  by_cases h1 : tt ≤ env.now
  · simp [h1]
  · by_cases h2 : env.pushThrows = true <;> simp [h1, h2]

theorem tier2Fallback_events (env : AlarmEnv) (alarmId destId : String) (tt : Int)
    (title message : String) (s : AlarmState) :
    (tier2Fallback env alarmId destId tt title message s).2.events =
      s.events ++ [AlarmEvent.tier2Attempt alarmId] := by
  unfold tier2Fallback scheduleWithPushNotification recordAlarm
  by_cases h1 : tt ≤ env.now
  · simp [h1]
  · by_cases h2 : env.pushThrows = true <;> simp [h1, h2]

theorem scheduleCommuteAlarm_alarms (env : AlarmEnv) (dest : Destination) (cr : CommuteResult)
    (st : AlarmState) :
    (scheduleCommuteAlarm env dest cr st).2.scheduledAlarms =
      (if (scheduleCommuteAlarm env dest cr st).1 = true then
        mapSet (cancelAlarm env (alarmIdFor dest.id) st).scheduledAlarms (alarmIdFor dest.id)
          (newAlarmFor env dest cr)
      else (cancelAlarm env (alarmIdFor dest.id) st).scheduledAlarms) := by
  unfold scheduleCommuteAlarm
  by_cases hp : (env.isAndroid && env.hasNativeModule) = true
  · by_cases hc : env.canExact = true
    · rcases he : env.exactResult with _ | b
      · simp [hp, hc, he]
      · cases b
        · simp only [if_pos hp, if_pos hc]
          rw [tier2Fallback_alarms]
          simp [recordAlarm, newAlarmFor]
        · simp [hp, hc, recordAlarm, newAlarmFor]
    · simp only [if_pos hp, if_neg hc]
      rw [tier2Fallback_alarms]
      simp [newAlarmFor]
  · simp only [if_neg hp]
    rw [tier2Fallback_alarms]
    simp [newAlarmFor]

theorem scheduleCommuteAlarm_events (env : AlarmEnv) (dest : Destination) (cr : CommuteResult)
    (st : AlarmState) :
    ∃ l, (scheduleCommuteAlarm env dest cr st).2.events =
      st.events ++ AlarmEvent.cancelCall (alarmIdFor dest.id) :: l := by
  unfold scheduleCommuteAlarm
  by_cases hp : (env.isAndroid && env.hasNativeModule) = true
  · by_cases hc : env.canExact = true
    · rcases he : env.exactResult with _ | b
      · exact ⟨[AlarmEvent.tier1Attempt (alarmIdFor dest.id)],
          by simp [hp, hc, he, cancelAlarm_events]⟩
      · cases b
        · refine ⟨[AlarmEvent.tier1Attempt (alarmIdFor dest.id),
            AlarmEvent.tier2Attempt (alarmIdFor dest.id)], ?_⟩
          simp only [if_pos hp, if_pos hc]
          rw [tier2Fallback_events]
          simp [cancelAlarm_events]
        · exact ⟨[AlarmEvent.tier1Attempt (alarmIdFor dest.id)],
            by simp [hp, hc, recordAlarm, cancelAlarm_events]⟩
    · refine ⟨[AlarmEvent.tier2Attempt (alarmIdFor dest.id)], ?_⟩
      simp only [if_pos hp, if_neg hc]
      rw [tier2Fallback_events, cancelAlarm_events]
      simp
  · refine ⟨[AlarmEvent.tier2Attempt (alarmIdFor dest.id)], ?_⟩
    simp only [if_neg hp]
    rw [tier2Fallback_events, cancelAlarm_events]
    simp

/-- C5: `scheduleCommuteAlarm` cancels the destination's deterministic
alarm id first (the cancel call is the first externally observable event,
before any scheduling attempt), and on a well-formed tracked table the
result is well-formed, holds exactly one entry for the destination after
any successful schedule, and never holds more than one entry for it —
repeated calls cannot stack a second alarm. -/
theorem c5_single_alarm_per_destination (env : AlarmEnv) (dest : Destination)
    (cr : CommuteResult) (st : AlarmState) (hwf : AlarmWf st) :
    AlarmWf (scheduleCommuteAlarm env dest cr st).2 ∧
    ((scheduleCommuteAlarm env dest cr st).1 = true →
      destCount dest.id (scheduleCommuteAlarm env dest cr st).2.scheduledAlarms = 1) ∧
    destCount dest.id (scheduleCommuteAlarm env dest cr st).2.scheduledAlarms ≤ 1 ∧
    (∃ l, (scheduleCommuteAlarm env dest cr st).2.events =
      st.events ++ AlarmEvent.cancelCall (alarmIdFor dest.id) :: l) := by
  have hwf1 : mapWf (cancelAlarm env (alarmIdFor dest.id) st).scheduledAlarms :=
    alarmWf_cancel env _ st hwf
  have halarms := scheduleCommuteAlarm_alarms env dest cr st
  have hwf2 : AlarmWf (scheduleCommuteAlarm env dest cr st).2 := by
    unfold AlarmWf
    rw [halarms]
    split
    · exact mapWf_set _ _ _ hwf1 rfl
    · exact hwf1
  refine ⟨hwf2, ?_, destCount_le_one _ _ hwf2, scheduleCommuteAlarm_events env dest cr st⟩
  intro hs
  rw [destCount_eq_keyCount _ _ hwf2.2, halarms, if_pos hs]
  exact keyCount_mapSet _ _ _ hwf1.1

theorem c5_single_alarm_per_destination_witness :
    AlarmWf emptyAlarmState ∧
    (AlarmWf (scheduleCommuteAlarm c5Env c5Dest c5Result emptyAlarmState).2 ∧
     ((scheduleCommuteAlarm c5Env c5Dest c5Result emptyAlarmState).1 = true →
       destCount c5Dest.id
         (scheduleCommuteAlarm c5Env c5Dest c5Result emptyAlarmState).2.scheduledAlarms = 1) ∧
     destCount c5Dest.id
       (scheduleCommuteAlarm c5Env c5Dest c5Result emptyAlarmState).2.scheduledAlarms ≤ 1 ∧
     (∃ l, (scheduleCommuteAlarm c5Env c5Dest c5Result emptyAlarmState).2.events =
       emptyAlarmState.events ++ AlarmEvent.cancelCall (alarmIdFor c5Dest.id) :: l)) :=
  ⟨⟨by simp [emptyAlarmState], by simp [emptyAlarmState]⟩,
   c5_single_alarm_per_destination c5Env c5Dest c5Result emptyAlarmState
     ⟨by simp [emptyAlarmState], by simp [emptyAlarmState]⟩⟩

/-- C6 counterexample: on Android with the native module present and
exact-alarm permission granted, a THROWN native `scheduleExactAlarm` call
is caught by the outer catch and `scheduleCommuteAlarm` returns failure
with no tier-2 attempt: the event trace ends at the tier-1 attempt and
contains no tier-2 attempt. -/
theorem c6_counterexample :
    (scheduleCommuteAlarm c6Env c6Dest c6Result emptyAlarmState).1 = false ∧
    (scheduleCommuteAlarm c6Env c6Dest c6Result emptyAlarmState).2.events =
      [AlarmEvent.cancelCall "commute_work", AlarmEvent.tier1Attempt "commute_work"] ∧
    AlarmEvent.tier2Attempt "commute_work" ∉
      (scheduleCommuteAlarm c6Env c6Dest c6Result emptyAlarmState).2.events := by
  decide

/-- C6 amended: tier 2 is attempted whenever tier 1 is unavailable (not
Android or no native module), not permitted, or RETURNS false without
throwing; but when the tier-1 native call throws, the exception is caught
at the top level and the call reports failure with no tier-2 attempt. -/
theorem c6_amended_tier2_fallback (env : AlarmEnv) (dest : Destination)
    (cr : CommuteResult) (st : AlarmState) :
    ((env.isAndroid && env.hasNativeModule) = false ∨ env.canExact = false ∨
        env.exactResult = some false →
      AlarmEvent.tier2Attempt (alarmIdFor dest.id) ∈
        (scheduleCommuteAlarm env dest cr st).2.events) ∧
    ((env.isAndroid && env.hasNativeModule) = true → env.canExact = true →
        env.exactResult = none →
      (scheduleCommuteAlarm env dest cr st).1 = false ∧
      (scheduleCommuteAlarm env dest cr st).2.events =
        st.events ++ [AlarmEvent.cancelCall (alarmIdFor dest.id),
          AlarmEvent.tier1Attempt (alarmIdFor dest.id)]) := by
  constructor
  · intro h
    unfold scheduleCommuteAlarm
    by_cases hp : (env.isAndroid && env.hasNativeModule) = true
    · by_cases hc : env.canExact = true
      · have he : env.exactResult = some false := by
          rcases h with h | h | h
          · rw [hp] at h
            exact absurd h (by simp)
          · rw [hc] at h
            exact absurd h (by simp)
          · exact h
        rw [if_pos hp, if_pos hc, he]
        rw [tier2Fallback_events]
        simp
      · simp only [if_pos hp, if_neg hc]
        rw [tier2Fallback_events]
        simp
    · simp only [if_neg hp]
      rw [tier2Fallback_events]
      simp
  · intro hp hc he
    unfold scheduleCommuteAlarm
    rw [if_pos hp, if_pos hc, he]
    refine ⟨rfl, ?_⟩
    simp [cancelAlarm_events]

theorem c6_amended_tier2_fallback_witness :
    AlarmEvent.tier2Attempt (alarmIdFor c6Dest.id) ∈
      (scheduleCommuteAlarm c6EnvNoPerm c6Dest c6Result emptyAlarmState).2.events ∧
    ((scheduleCommuteAlarm c6Env c6Dest c6Result emptyAlarmState).1 = false ∧
      (scheduleCommuteAlarm c6Env c6Dest c6Result emptyAlarmState).2.events =
        emptyAlarmState.events ++ [AlarmEvent.cancelCall (alarmIdFor c6Dest.id),
          AlarmEvent.tier1Attempt (alarmIdFor c6Dest.id)]) :=
  ⟨(c6_amended_tier2_fallback c6EnvNoPerm c6Dest c6Result emptyAlarmState).1
      (Or.inr (Or.inl rfl)),
   (c6_amended_tier2_fallback c6Env c6Dest c6Result emptyAlarmState).2 rfl rfl rfl⟩

theorem calculateCommute_isSome (cenv : CommuteEnv) (now : Int) (d : Destination) :
    (calculateCommute cenv now d).isSome =
      !((cenv.etaSeconds d).isNone || (cenv.weather d).isNone) := by
  unfold calculateCommute
  rcases cenv.etaSeconds d with _ | x <;> rcases cenv.weather d with _ | y <;> rfl

theorem sweep_count (env : BgEnv) (dests : List Destination) (n : Nat) (a : AlarmState) :
    (dests.foldl (sweepStep env) (n, a)).1 =
      n + (dests.filter
        (fun d => (calculateCommute env.commuteEnv env.now d).isSome)).length := by
  induction dests generalizing n a with
  | nil => simp
  | cons d t ih =>
    rw [List.foldl_cons, List.filter_cons]
    rcases h : calculateCommute env.commuteEnv env.now d with _ | cr
    · have hs : sweepStep env (n, a) d = (n, a) := by simp [sweepStep, h]
      rw [hs, ih]
      simp [h]
    · have hs : sweepStep env (n, a) d =
          (n + 1, (scheduleCommuteAlarm env.alarmEnv d cr a).2) := by
        simp [sweepStep, h]
      rw [hs, ih]
      simp [h]
      omega

theorem lengthFilterSplit {α : Type} (l : List α) (p : α → Bool) :
    (l.filter p).length + (l.filter (fun x => !p x)).length = l.length := by
  induction l with
  | nil => rfl
  | cons a t ih =>
    by_cases h : p a = true <;> simp [List.filter_cons, h, ← ih] <;> omega

theorem scheduleCommuteAlarm_events_extend (env : AlarmEnv) (dest : Destination)
    (cr : CommuteResult) (s : AlarmState) :
    ∃ l, (scheduleCommuteAlarm env dest cr s).2.events = s.events ++ l := by
  rcases scheduleCommuteAlarm_events env dest cr s with ⟨l, hl⟩
  exact ⟨AlarmEvent.cancelCall (alarmIdFor dest.id) :: l, hl⟩

theorem foldl_sweep_events_extend (env : BgEnv) (dests : List Destination)
    (acc : Nat × AlarmState) :
    ∃ l, (dests.foldl (sweepStep env) acc).2.events = acc.2.events ++ l := by
  induction dests generalizing acc with
  | nil => exact ⟨[], by simp⟩
  | cons d t ih =>
    rw [List.foldl_cons]
    rcases ih (sweepStep env acc d) with ⟨l2, hl2⟩
    rcases hstep : calculateCommute env.commuteEnv env.now d with _ | cr
    · have hs : sweepStep env acc d = acc := by simp [sweepStep, hstep]
      rw [hs] at hl2 ⊢
      exact ⟨l2, hl2⟩
    · have hs : sweepStep env acc d =
          (acc.1 + 1, (scheduleCommuteAlarm env.alarmEnv d cr acc.2).2) := by
        simp [sweepStep, hstep]
      rcases scheduleCommuteAlarm_events_extend env.alarmEnv d cr acc.2 with ⟨l1, hl1⟩
      rw [hs] at hl2 ⊢
      refine ⟨l1 ++ l2, ?_⟩
      rw [hl2]
      simp only at hl2 ⊢
      rw [hl1, List.append_assoc]

theorem foldl_sweep_visits (env : BgEnv) (dests : List Destination) (acc : Nat × AlarmState)
    (d : Destination)
    (hs : (calculateCommute env.commuteEnv env.now d).isSome = true)
    (hd : d ∈ dests) :
    AlarmEvent.cancelCall (alarmIdFor d.id) ∈ (dests.foldl (sweepStep env) acc).2.events := by
  induction dests generalizing acc with
  | nil => cases hd
  | cons a t ih =>
    rw [List.foldl_cons]
    rcases List.mem_cons.mp hd with heq | hmem
    · subst heq
      rcases ho : calculateCommute env.commuteEnv env.now d with _ | cr
      · rw [ho] at hs
        cases hs
      · have hstep : sweepStep env acc d =
            (acc.1 + 1, (scheduleCommuteAlarm env.alarmEnv d cr acc.2).2) := by
          simp [sweepStep, ho]
        rw [hstep]
        rcases scheduleCommuteAlarm_events env.alarmEnv d cr acc.2 with ⟨l1, hl1⟩
        rcases foldl_sweep_events_extend env t
          (acc.1 + 1, (scheduleCommuteAlarm env.alarmEnv d cr acc.2).2) with ⟨l2, hl2⟩
        rw [hl2]
        simp only at hl2 ⊢
        rw [hl1]
        simp
    · exact ih _ hmem

/-- C7: when exactly one destination's travel-estimate or weather fetch
fails (and the sweep is not already running), `runDailyCalculation` still
visits every remaining destination (each one's alarm scheduling is
invoked), completes, and persists a completed record whose processed count
is N-1; the failing destination aborts only its own pipeline. -/
theorem c7_sweep_isolation (env : BgEnv) (st : BgState)
    (hrun : st.isRunning = false)
    (hone : (env.destinations.filter (fun d =>
      (env.commuteEnv.etaSeconds d).isNone || (env.commuteEnv.weather d).isNone)).length = 1) :
    (runDailyCalculation env st).lastTaskInfo =
      some { lastRun := env.now, destinationsProcessed := env.destinations.length - 1,
             status := TaskStatus.completed, error := none } ∧
    ∀ d ∈ env.destinations, (calculateCommute env.commuteEnv env.now d).isSome = true →
      AlarmEvent.cancelCall (alarmIdFor d.id) ∈ (runDailyCalculation env st).alarms.events := by
  have hfilters : env.destinations.filter
        (fun d => !(calculateCommute env.commuteEnv env.now d).isSome) =
      env.destinations.filter (fun d =>
        (env.commuteEnv.etaSeconds d).isNone || (env.commuteEnv.weather d).isNone) := by
    apply List.filter_congr
    intro d _
    rw [calculateCommute_isSome, Bool.not_not]
  have hsplit := lengthFilterSplit env.destinations
    (fun d => (calculateCommute env.commuteEnv env.now d).isSome)
  rw [hfilters, hone] at hsplit
  have hne : env.destinations ≠ [] := by
    intro hc
    rw [hc] at hone
    simp at hone
  have hempty : env.destinations.isEmpty = false := by
    rcases hds : env.destinations with _ | ⟨a, t⟩
    · exact absurd hds hne
    · rfl
  have hcount : (env.destinations.foldl (sweepStep env) (0, st.alarms)).1 =
      env.destinations.length - 1 := by
    rw [sweep_count]
    omega
  unfold runDailyCalculation
  rw [hrun]
  simp only [Bool.false_eq_true, if_false, hempty]
  constructor
  · simp [hcount]
  · intro d hd hs
    exact foldl_sweep_visits env env.destinations (0, st.alarms) d hs hd

theorem c7_sweep_isolation_witness :
    (runDailyCalculation c7Env c7State).lastTaskInfo =
      some { lastRun := c7Env.now, destinationsProcessed := c7Env.destinations.length - 1,
             status := TaskStatus.completed, error := none } :=
  (c7_sweep_isolation c7Env c7State rfl (by decide)).1

/-- C8 counterexample: with an empty destination list and no previously
stored record, `runDailyCalculation` returns early WITHOUT persisting any
record — the stored task info stays absent instead of becoming a completed
record with count 0. -/
theorem c8_counterexample :
    (runDailyCalculation c8Env c8State).lastTaskInfo = none ∧
    (runDailyCalculation c8Env c8State).lastTaskInfo ≠
      some { lastRun := 0, destinationsProcessed := 0, status := TaskStatus.completed,
             error := none } := by
  constructor
  · rfl
  · intro hc
    cases hc

/-- C8 amended: when the stored destination list is empty, the sweep
returns early at the "no destinations" check and persists nothing: the
entire service state is left unchanged (no completed record, no failure). -/
theorem c8_amended_empty_sweep (env : BgEnv) (st : BgState)
    (h : env.destinations = []) :
    runDailyCalculation env st = st := by
  unfold runDailyCalculation
  by_cases hr : st.isRunning = true
  · rw [if_pos hr]
  · rw [if_neg hr, h]
    simp only [List.isEmpty_nil, if_true]
    cases st
    simp only [Bool.not_eq_true] at hr
    simp [hr]

theorem c8_amended_empty_sweep_witness :
    runDailyCalculation c8Env c8State = c8State :=
  c8_amended_empty_sweep c8Env c8State rfl

/-- C9: the sweep is non-reentrant — when `isRunning` is already true,
`runDailyCalculation` is a silent no-op: no destination is processed, no
error is raised, and every piece of state (persisted records, alarms, the
flag itself) is left exactly as it was. -/
theorem c9_nonreentrant (env : BgEnv) (st : BgState) (h : st.isRunning = true) :
    runDailyCalculation env st = st := by
  unfold runDailyCalculation
  rw [if_pos h]

theorem c9_nonreentrant_witness :
    runDailyCalculation c9Env c9State = c9State :=
  c9_nonreentrant c9Env c9State rfl

/-- C10: `forceRecalculation` leaves the persisted last-calculation date
cleared (the forced run never rewrites it), so a subsequent
`checkAndRunDailyCalculation` on any day finds no stored date, executes a
full sweep instead of skipping, and only that guarded run records the
date. -/
theorem c10_force_clears_date_guard (env env2 : BgEnv) (st : BgState) :
    (forceRecalculation env st).lastCalculation = none ∧
    checkAndRunDailyCalculation env2 (forceRecalculation env st) =
      { runDailyCalculation env2 (forceRecalculation env st) with
        lastCalculation := some env2.today } := by
  have hpres : ∀ (e : BgEnv) (s : BgState),
      (runDailyCalculation e s).lastCalculation = s.lastCalculation := by
    intro e s
    unfold runDailyCalculation
    by_cases hr : s.isRunning = true
    · rw [if_pos hr]
    · rw [if_neg hr]
      by_cases he : e.destinations.isEmpty = true
      · simp [he]
      · simp [he]
  have h1 : (forceRecalculation env st).lastCalculation = none := by
    unfold forceRecalculation
    rw [hpres]
  refine ⟨h1, ?_⟩
  have hne : ¬((forceRecalculation env st).lastCalculation = some env2.today) := by
    rw [h1]
    simp
  unfold checkAndRunDailyCalculation
  rw [if_neg hne]

theorem c2_amended_heavy_rain_floor_witness :
    hasKw "heavy rain" "snow" = false ∧ hasKw "heavy rain" "blizzard" = false ∧
    hasKw "heavy rain" "storm" = false ∧ hasKw "heavy rain" "thunder" = false ∧
    ((95 : Int) > 90 ∨ ((95 : Int) > 70 ∧ hasKw "heavy rain" "heavy rain" = true)) ∧
    DEFAULT_WEATHER_DELAYS.heavyRain * 60 ≤
      calculateWeatherDelay DEFAULT_WEATHER_DELAYS
        { description := "heavy rain", precipitationProbability := 95, windSpeed := none } :=
  ⟨by decide, by decide, by decide, by decide, Or.inl (by norm_num),
    c2_amended_heavy_rain_floor DEFAULT_WEATHER_DELAYS
      { description := "heavy rain", precipitationProbability := 95, windSpeed := none }
      (by decide) (by decide) (by decide) (by decide) (Or.inl (by norm_num))⟩
